import Mathlib

/-!
Verification of the Batch Submission Retry Controller of the Atlas-OCR
repository (cdk/helpers/dotsOcrBatch.ts, two variants, and the state
machine wiring in createDotsOcrBatchStateMachine).

The Step Functions workflow is shallowly embedded:
* JSON values appearing in error causes are modelled by `Json`; the
  external `States.StringToJson` intrinsic is a parameter
  `parse : String → Option Json` of every definition that uses it
  (`none` models a parse failure of the intrinsic).
* The Choice-state conditions `stringMatches` (with the concrete
  patterns "{*", "*CapacityError*", "*ThrottlingException*") and
  `isNull` are embedded as boolean functions on strings / JSON values.
  A Choice comparison against a path that does not exist in the
  effective input raises States.Runtime and aborts the execution (the
  source has no IsPresent guard and no catcher on the Choice states);
  this is modelled by the `runtimeError` classifier outcome.
* The retry loop (initRetryCounter / incrementRetry / checkRetryLimit /
  waitBeforeRetry / prepareBatchInput / batchTask plus the classifier
  chain) is identical in the two source variants (lines 56-151 and
  284-382 of the concatenated source); it is embedded once, both as a
  big-step trace function `runFrom` and as a small-step function
  `step` on configurations.
-/

/-- JSON values, as produced by the States.StringToJson intrinsic. -/
inductive Json where
  | null
  | bool (b : Bool)
  | num (n : Int)
  | str (s : String)
  | obj (fields : List (String × Json))

/-- Field lookup on a parsed JSON value ($.cause.Parsed.FailureReason).
`none` models a missing field (or a non-object value). -/
def getField (j : Json) (key : String) : Option Json :=
  match j with
  | .obj fields => fields.lookup key
  | _ => none

/-- Auxiliary: does `pat` occur as a contiguous run inside `s`? -/
def containsAux (pat : List Char) : List Char → Bool
  | [] => pat.isEmpty
  | c :: rest => pat.isPrefixOf (c :: rest) || containsAux pat rest

/-- Substring containment, the meaning of a `stringMatches` condition
with pattern `"*pat*"`. -/
def strContains (s pat : String) : Bool :=
  containsAux pat.data s.data

/-- Does `s` start with `pat`?  The meaning of a `stringMatches`
condition with pattern `"pat*"`. -/
def strStartsWith (s pat : String) : Bool :=
  pat.data.isPrefixOf s.data

/-- The structured-data opening marker used by the RouteCauseFormat
choice (`stringMatches("$.cause.Cause", "{*")`). -/
def jsonOpenBrace : String := "\x7b"

/-- Condition `stringMatches(path, "*pat*")` applied to a JSON value
present at the path: true only when the value is a string containing
`pat` (a value of another type does not match).  A missing path never
reaches this function: it raises States.Runtime instead (see
`classifyCause`). -/
def stringMatchesValue (v : Json) (pat : String) : Bool :=
  match v with
  | .str s => strContains s pat
  | _ => false

/-- Condition `isNull(path)` applied to a JSON value present at the
path.  A missing path never reaches this function: it raises
States.Runtime instead (see `classifyCause`). -/
def isNullValue (v : Json) : Bool :=
  match v with
  | .null => true
  | _ => false

/-- Text surfaced by a Fail state whose `causePath` points at the given
JSON value (only the string case is exercised by the claims). -/
def causeText (v : Json) : String :=
  match v with
  | .str s => s
  | _ => ""

/-- Outcome of running the failure-classifier chain
(RouteCauseFormat → ParseErrorCause → CheckCapacityError →
CheckFailureReasonPresent / CheckThrottling) on a raw cause string. -/
inductive ClassifyResult where
  /-- The cause was recognised as retryable; control enters `retryChain`. -/
  | retry
  /-- A Fail state was reached: its `error` code and surfaced cause text. -/
  | terminalFail (error reasonText : String)
  /-- `States.StringToJson` failed on a cause that starts with "\x7b";
  the ParseErrorCause Pass state has no catcher, so the error escapes
  the classifier unhandled. -/
  | parseError
  /-- A Choice rule (StringMatches / IsNull) was evaluated against the
  nonexistent `$.cause.Parsed.FailureReason` path: ASL raises
  States.Runtime there, and with no IsPresent guard and no catcher the
  execution aborts. -/
  | runtimeError
deriving DecidableEq

/-- The classifier chain rooted at RouteCauseFormat, exactly as wired in
`createRetryLogic`:
* `stringMatches("$.cause.Cause", "\x7b*")` routes to ParseErrorCause,
  which applies `States.StringToJson($.cause.Cause)` and continues to
  CheckCapacityError;
* CheckCapacityError: `stringMatches("$.cause.Parsed.FailureReason",
  "*CapacityError*")` → retryChain, otherwise CheckFailureReasonPresent;
* CheckFailureReasonPresent: `isNull($.cause.Parsed.FailureReason)` →
  Fail(NonCapacityFailure, "Unknown failure"), otherwise
  Fail(NonCapacityFailure, causePath = FailureReason);
* when the parsed object has no FailureReason field at all, the first
  Choice rule that reads the path (CheckCapacityError's StringMatches)
  raises States.Runtime — there is no IsPresent guard — and the
  execution aborts (`.runtimeError`);
* otherwise CheckThrottling: `stringMatches("$.cause.Cause",
  "*ThrottlingException*")` → retryChain, otherwise
  Fail(NonCapacityFailure, causePath = $.cause.Cause). -/
def classifyCause (parse : String → Option Json) (cause : String) : ClassifyResult :=
  if strStartsWith cause jsonOpenBrace then
    match parse cause with
    | none => .parseError
    | some parsed =>
      match getField parsed "FailureReason" with
      | none => .runtimeError
      | some fr =>
        if stringMatchesValue fr "CapacityError" then .retry
        else if isNullValue fr then .terminalFail "NonCapacityFailure" "Unknown failure"
        else .terminalFail "NonCapacityFailure" (causeText fr)
  else if strContains cause "ThrottlingException" then .retry
  else .terminalFail "NonCapacityFailure" cause

/-- Resolved job parameters ($.input after SelectParams).  Field names
map to the execution-input keys `instance_type`, `input_prefix`,
`output_prefix` of the source. -/
structure Params where
  instanceType : String
  inputLocation : String
  outputLocation : String
deriving DecidableEq

/-- The DEFAULT_PARAMS constant (identical in both source variants). -/
def DEFAULT_PARAMS : Params :=
  { instanceType := "ml.g5.xlarge"
  , inputLocation := "incoming/"
  , outputLocation := "processed/runs/1/" }

/-- Caller-supplied execution input: any subset of the three parameter
keys may be present (`none` models an absent key; `some s` a present
string value, possibly empty). -/
structure Overrides where
  instanceType : Option String
  inputLocation : Option String
  outputLocation : Option String
deriving DecidableEq

/-- The InjectDefaults → MergeParams → SelectParams prelude:
`States.JsonMerge($.defaults, $, false)` is a shallow merge in which the
second argument (the caller input) wins on every key it carries —
including keys carrying an empty string — and SelectParams picks out the
three parameter keys of the merged object. -/
def mergeParams (o : Overrides) : Params :=
  { instanceType := o.instanceType.getD DEFAULT_PARAMS.instanceType
  , inputLocation := o.inputLocation.getD DEFAULT_PARAMS.inputLocation
  , outputLocation := o.outputLocation.getD DEFAULT_PARAMS.outputLocation }

/-- An execution input supplying no overrides at all. -/
def noOverrides : Overrides := ⟨none, none, none⟩

/-- Terminal signal of one SageMakerCreateTransformJob task attempt
(integrationPattern RUN_JOB): either the job succeeded, or the task step
raised an error with the given error name and cause string. -/
inductive TaskOutcome where
  | succeeded
  | failed (errorName cause : String)

/-- The `errors` list of `batchTask.addCatch(routeCauseFormat, ...)`:
only `States.TaskFailed` is caught and routed into the classifier. -/
def batchTaskCatchErrors : List String := ["States.TaskFailed"]

/-- The loop-carried state of the retry controller: the `retryCount`
counter and the `$.input` object carried unchanged through
IncrementRetry and PrepareBatchInput. -/
structure LoopState where
  retryCount : Nat
  input : Params
deriving DecidableEq

/-- One submission issued to the Job Execution Service: its position in
the run (0-based), the retryCount at submission time, and the resolved
parameters read by the batch task ($.input.*). -/
structure Submission where
  index : Nat
  retryCount : Nat
  params : Params
deriving DecidableEq

/-- Terminal outcome of a whole run. -/
inductive Terminal where
  /-- The batch task succeeded; the run ends in its success state. -/
  | succeeded (st : LoopState)
  /-- A Fail state was reached (error code, surfaced cause text). -/
  | failed (error reasonText : String)
  /-- The task raised an error not listed in the catch table; it escapes
  the retry logic and the run terminates unclassified. -/
  | unclassified (error : String)
  /-- `States.StringToJson` failed inside ParseErrorCause, which has no
  catcher of its own: the run aborts with the unhandled intrinsic error. -/
  | classifierParseError
  /-- A Choice comparison on the missing `$.cause.Parsed.FailureReason`
  path raised States.Runtime; nothing catches it, so the run aborts. -/
  | classifierRuntimeError
deriving DecidableEq

/-- Cause string of the MaxRetriesExceeded Fail state. -/
def maxRetriesCause : String :=
  "Exceeded maximum retry attempts (10) for capacity/throttling errors"

/-- Big-step trace semantics of the retry loop from a loop state `st`,
with `n` submissions already issued.  `outcomes k` is the terminal
signal the external service returns for the k-th submission of the run.
Mirrors the wiring: PrepareBatchInput → batchTask; on States.TaskFailed
the catch routes to the classifier chain; a retryable cause runs
IncrementRetry (`States.MathAdd($.retryCount, 1)`, keeping `$.input`)
then CheckRetryLimit (`numberGreaterThanEquals("$.retryCount", 10)` →
MaxRetriesExceeded, otherwise WaitBeforeRetry → PrepareBatchInput →
batchTask again).  Returns the list of submissions issued and the
terminal outcome. -/
def runFrom (parse : String → Option Json) (outcomes : Nat → TaskOutcome)
    (n : Nat) (st : LoopState) : List Submission × Terminal :=
  let sub : Submission := ⟨n, st.retryCount, st.input⟩
  match outcomes n with
  | .succeeded => ([sub], .succeeded st)
  | .failed errName cause =>
    if errName ∈ batchTaskCatchErrors then
      match classifyCause parse cause with
      | .parseError => ([sub], .classifierParseError)
      | .runtimeError => ([sub], .classifierRuntimeError)
      | .terminalFail e r => ([sub], .failed e r)
      | .retry =>
        if h : st.retryCount + 1 ≥ 10 then
          ([sub], .failed "MaxRetriesExceeded" maxRetriesCause)
        else
          let rest := runFrom parse outcomes (n + 1) ⟨st.retryCount + 1, st.input⟩
          (sub :: rest.1, rest.2)
    else ([sub], .unclassified errName)
termination_by 10 - st.retryCount
decreasing_by simp at h; omega

/-- A whole run of the state machine `createDotsOcrBatchStateMachine`:
InjectDefaults → MergeParams → SelectParams resolve the parameters, then
InitRetryCounter sets `retryCount = 0` and the retry loop starts. -/
def runStateMachine (parse : String → Option Json)
    (outcomes : Nat → TaskOutcome) (o : Overrides) :
    List Submission × Terminal :=
  runFrom parse outcomes 0 ⟨0, mergeParams o⟩

/-- Small-step configurations of the retry controller.  `submit n st`
is the machine at PrepareBatchInput / batchTask about to issue its n-th
submission; `afterIncrement n st` is the machine at CheckRetryLimit,
the counter already incremented by IncrementRetry. -/
inductive Config where
  | submit (n : Nat) (st : LoopState)
  | afterIncrement (n : Nat) (st : LoopState)
  | terminal (t : Terminal)
deriving DecidableEq

/-- One transition of the retry controller (deterministic given the
outcome oracle). -/
def step (parse : String → Option Json) (outcomes : Nat → TaskOutcome) :
    Config → Config
  | .submit n st =>
    match outcomes n with
    | .succeeded => .terminal (.succeeded st)
    | .failed errName cause =>
      if errName ∈ batchTaskCatchErrors then
        match classifyCause parse cause with
        | .parseError => .terminal .classifierParseError
        | .runtimeError => .terminal .classifierRuntimeError
        | .terminalFail e r => .terminal (.failed e r)
        | .retry => .afterIncrement (n + 1) ⟨st.retryCount + 1, st.input⟩
      else .terminal (.unclassified errName)
  | .afterIncrement n st =>
    if st.retryCount ≥ 10 then
      .terminal (.failed "MaxRetriesExceeded" maxRetriesCause)
    else .submit n st
  | .terminal t => .terminal t

/-- Initial configuration of a run with execution input `o`. -/
def initConfig (o : Overrides) : Config :=
  .submit 0 ⟨0, mergeParams o⟩

/-- The DEPLOYMENT_VERSION constant (identical in both variants). -/
def DEPLOYMENT_VERSION : String := "v1"

/-- JavaScript `s.substring(0, n)`: the first `n` characters of `s`
(all of `s` when it is shorter). -/
def substringTo (s : String) (n : Nat) : String := ⟨s.data.take n⟩

/-- Decimal digit character for `d < 10` (any other input is mapped to
an unused placeholder). -/
def digitChar : Nat → Char
  | 0 => '0' | 1 => '1' | 2 => '2' | 3 => '3' | 4 => '4'
  | 5 => '5' | 6 => '6' | 7 => '7' | 8 => '8' | 9 => '9'
  | _ => '*'

/-- Fuel-driven decimal rendering: prepends the digits of `n` to `acc`.
The fuel is always instantiated at `n + 1`, which exceeds the number of
decimal digits of `n`. -/
def natDigitsAux : Nat → Nat → List Char → List Char
  | 0, _, acc => acc
  | fuel + 1, n, acc =>
    if n < 10 then digitChar n :: acc
    else natDigitsAux fuel (n / 10) (digitChar (n % 10) :: acc)

/-- Decimal rendering of a natural number, as `States.Format` renders
the JSON number `$.retryCount`. -/
def natRepr (n : Nat) : String := ⟨natDigitsAux (n + 1) n []⟩

/-- Numeric value of a decimal digit character (proof helper). -/
def digitVal (c : Char) : Nat := c.toNat - 48

/-- Value of a big-endian decimal digit list (proof helper, used to
invert `natRepr`). -/
def digitsVal (ds : List Char) : Nat :=
  ds.foldl (fun a c => 10 * a + digitVal c) 0

namespace V1

/-- Variant 1 (lines 47-53): `JsonPath.format("\x7b\x7d-ocr-\x7b\x7d-\x7b\x7d",
base.substring(0, 20), DEPLOYMENT_VERSION, $$.Execution.Name)`.  The
attempt number is not part of the format. -/
def buildTransformJobName (base execName : String) : String :=
  substringTo base 20 ++ "-ocr-" ++ DEPLOYMENT_VERSION ++ "-" ++ execName

/-- The transform-job name the variant-1 machine submits on a given
attempt.  The `transformJobName` property is a single per-execution
value with no attempt placeholder, so every attempt of an execution
submits the same name; the attempt argument is ignored. -/
def jobNameAt (base execName : String) (attempt : Nat) : String :=
  buildTransformJobName base execName

end V1

namespace V2

/-- Variant 2 (lines 276-281): the template literal
`truncatedBase-suffix-DEPLOYMENT_VERSION-\x7b\x7d-\x7b\x7d` formatted with
`$$.Execution.Name` and `$.retryCount`.  The base is interpolated
verbatim (the caller is expected to have truncated it; the call site at
line 428 passes `jobNameBase` unmodified); the source's default suffix
is "bt", and the variant-2 machine passes "dots". -/
def buildTransformJobName (truncatedBase suffix execName : String)
    (retryCount : Nat) : String :=
  truncatedBase ++ "-" ++ suffix ++ "-" ++ DEPLOYMENT_VERSION ++ "-" ++
    execName ++ "-" ++ natRepr retryCount

end V2

/-- Invariant of the retry controller: a submitting configuration has
`retryCount ≤ 9`; a configuration at CheckRetryLimit has
`retryCount ≤ 10`, and when the counter has reached 10 its only
successor is the MaxRetriesExceeded terminal failure. -/
def retryInvariant (parse : String → Option Json)
    (outcomes : Nat → TaskOutcome) : Config → Prop
  | .submit _ st => st.retryCount ≤ 9
  | .afterIncrement n st =>
    st.retryCount ≤ 10 ∧
      (st.retryCount = 10 →
        step parse outcomes (.afterIncrement n st) =
          .terminal (.failed "MaxRetriesExceeded" maxRetriesCause))
  | .terminal _ => True

lemma retryInvariant_step (parse : String → Option Json)
    (outcomes : Nat → TaskOutcome) (c : Config)
    (h : retryInvariant parse outcomes c) :
    retryInvariant parse outcomes (step parse outcomes c) := by
  cases c with
  | submit n st =>
    simp only [retryInvariant] at h
    simp only [step]
    cases outcomes n with
    | succeeded => simp [retryInvariant]
    | failed errName cause =>
      by_cases hmem : errName ∈ batchTaskCatchErrors
      · simp only [if_pos hmem]
        cases hcl : classifyCause parse cause with
        | retry =>
          simp only [retryInvariant, step]
          constructor
          · omega
          · intro h10
            rw [if_pos (by omega)]
        | terminalFail e r => simp [retryInvariant]
        | parseError => simp [retryInvariant]
        | runtimeError => simp [retryInvariant]
      · simp [if_neg hmem, retryInvariant]
  | afterIncrement n st =>
    simp only [step]
    by_cases h10 : st.retryCount ≥ 10
    · simp [if_pos h10, retryInvariant]
    · simp only [if_neg h10, retryInvariant]
      omega
  | terminal t => simp [step, retryInvariant]

lemma retryInvariant_iterate (parse : String → Option Json)
    (outcomes : Nat → TaskOutcome) (o : Overrides) (k : Nat) :
    retryInvariant parse outcomes
      ((step parse outcomes)^[k] (initConfig o)) := by
  induction k with
  | zero => simp [initConfig, retryInvariant]
  | succ k ih =>
    rw [Function.iterate_succ_apply']
    exact retryInvariant_step parse outcomes _ ih

lemma runFrom_allRetry (parse : String → Option Json)
    (outcomes : Nat → TaskOutcome) (causes : Nat → String)
    (ho : ∀ k, outcomes k = .failed "States.TaskFailed" (causes k))
    (hr : ∀ k, classifyCause parse (causes k) = .retry) :
    ∀ n st, st.retryCount ≤ 9 →
      (runFrom parse outcomes n st).1.length = 10 - st.retryCount ∧
        (runFrom parse outcomes n st).2 =
          .failed "MaxRetriesExceeded" maxRetriesCause := by
  intro n st
  induction n, st using runFrom.induct parse outcomes with
  | case1 n st hsucc => rw [ho n] at hsucc; exact absurd hsucc (by simp)
  | case2 n st errName cause hout hmem hcl =>
    rw [ho n] at hout
    obtain ⟨he, hc⟩ := TaskOutcome.failed.inj hout
    rw [← hc, hr n] at hcl
    simp at hcl
  | case3 n st errName cause hout hmem hcl =>
    rw [ho n] at hout
    obtain ⟨he, hc⟩ := TaskOutcome.failed.inj hout
    rw [← hc, hr n] at hcl
    simp at hcl
  | case4 n st errName cause hout hmem e r hcl =>
    rw [ho n] at hout
    obtain ⟨he, hc⟩ := TaskOutcome.failed.inj hout
    rw [← hc, hr n] at hcl
    simp at hcl
  | case5 n st errName cause hout hmem hcl hlim =>
    intro hrc
    rw [runFrom]
    simp only [hout, if_pos hmem, hcl, dif_pos hlim]
    constructor
    · simp; omega
    · trivial
  | case6 n st errName cause hout hmem hcl hlim ih =>
    intro hrc
    have ih' := ih (by simp; omega)
    rw [runFrom]
    simp only [hout, if_pos hmem, hcl, dif_neg hlim]
    constructor
    · simp only [List.length_cons, ih'.1]
      simp; omega
    · exact ih'.2
  | case7 n st errName cause hout hmem =>
    rw [ho n] at hout
    obtain ⟨he, hc⟩ := TaskOutcome.failed.inj hout
    rw [← he] at hmem
    exact absurd (by simp [batchTaskCatchErrors]) hmem

lemma runFrom_params_const (parse : String → Option Json)
    (outcomes : Nat → TaskOutcome) :
    ∀ n st sub, sub ∈ (runFrom parse outcomes n st).1 →
      sub.params = st.input := by
  intro n st
  induction n, st using runFrom.induct parse outcomes with
  | case1 n st hsucc =>
    intro sub hmem
    rw [runFrom] at hmem
    simp only [hsucc] at hmem
    simp at hmem
    rw [hmem]
  | case2 n st errName cause hout hmem hcl =>
    intro sub hsub
    rw [runFrom] at hsub
    simp only [hout, if_pos hmem, hcl] at hsub
    simp at hsub
    rw [hsub]
  | case3 n st errName cause hout hmem hcl =>
    intro sub hsub
    rw [runFrom] at hsub
    simp only [hout, if_pos hmem, hcl] at hsub
    simp at hsub
    rw [hsub]
  | case4 n st errName cause hout hmem e r hcl =>
    intro sub hsub
    rw [runFrom] at hsub
    simp only [hout, if_pos hmem, hcl] at hsub
    simp at hsub
    rw [hsub]
  | case5 n st errName cause hout hmem hcl hlim =>
    intro sub hsub
    rw [runFrom] at hsub
    simp only [hout, if_pos hmem, hcl, dif_pos hlim] at hsub
    simp at hsub
    rw [hsub]
  | case6 n st errName cause hout hmem hcl hlim ih =>
    intro sub hsub
    rw [runFrom] at hsub
    simp only [hout, if_pos hmem, hcl, dif_neg hlim] at hsub
    simp only [List.mem_cons] at hsub
    rcases hsub with hsub | hsub
    · rw [hsub]
    · exact ih sub hsub
  | case7 n st errName cause hout hmem =>
    intro sub hsub
    rw [runFrom] at hsub
    simp only [hout, if_neg hmem] at hsub
    simp at hsub
    rw [hsub]

lemma digitChar_ne_dash (n : Nat) : digitChar n ≠ '-' := by
  unfold digitChar
  split <;> decide

lemma digitVal_digitChar (n : Nat) (h : n < 10) :
    digitVal (digitChar n) = n := by
  interval_cases n <;> decide

lemma natDigitsAux_ne_dash :
    ∀ (fuel n : Nat) (acc : List Char), (∀ c ∈ acc, c ≠ '-') →
      ∀ c ∈ natDigitsAux fuel n acc, c ≠ '-' := by
  intro fuel
  induction fuel with
  | zero => intro n acc hacc; exact hacc
  | succ fuel ih =>
    intro n acc hacc c hc
    rw [natDigitsAux] at hc
    by_cases h10 : n < 10
    · rw [if_pos h10] at hc
      rcases List.mem_cons.mp hc with h | h
      · rw [h]; exact digitChar_ne_dash n
      · exact hacc c h
    · rw [if_neg h10] at hc
      refine ih (n / 10) (digitChar (n % 10) :: acc) ?_ c hc
      intro c' hc'
      rcases List.mem_cons.mp hc' with h | h
      · rw [h]; exact digitChar_ne_dash (n % 10)
      · exact hacc c' h

lemma natDigitsAux_acc :
    ∀ (n fuel : Nat) (acc : List Char), n < fuel →
      natDigitsAux fuel n acc = natDigitsAux (n + 1) n [] ++ acc := by
  intro n
  induction n using Nat.strong_induction_on with
  | _ n ih =>
    intro fuel acc hf
    match fuel, hf with
    | fuel + 1, hf =>
      by_cases h10 : n < 10
      · simp [natDigitsAux, h10]
      · have hpos : 0 < n := by omega
        have hdiv : n / 10 < n := Nat.div_lt_self hpos (by omega)
        rw [natDigitsAux, if_neg h10]
        rw [ih (n / 10) hdiv fuel _ (by omega)]
        conv_rhs => rw [natDigitsAux, if_neg h10]
        rw [ih (n / 10) hdiv n _ (by omega)]
        simp

lemma digitsVal_digitsOf (n : Nat) :
    digitsVal (natDigitsAux (n + 1) n []) = n := by
  induction n using Nat.strong_induction_on with
  | _ n ih =>
    by_cases h10 : n < 10
    · rw [natDigitsAux, if_pos h10]
      simp [digitsVal, digitVal_digitChar n h10]
    · have hpos : 0 < n := by omega
      have hdiv : n / 10 < n := Nat.div_lt_self hpos (by omega)
      rw [natDigitsAux, if_neg h10]
      rw [natDigitsAux_acc (n / 10) n _ (by omega)]
      rw [digitsVal, List.foldl_append]
      have h1 : List.foldl (fun a c => 10 * a + digitVal c) 0
          (natDigitsAux (n / 10 + 1) (n / 10) []) = n / 10 := ih (n / 10) hdiv
      rw [h1]
      simp only [List.foldl_cons, List.foldl_nil]
      rw [digitVal_digitChar (n % 10) (Nat.mod_lt n (by omega))]
      omega

lemma natRepr_injective {a b : Nat} (h : (natRepr a).data = (natRepr b).data) :
    a = b := by
  have ha := digitsVal_digitsOf a
  have hb := digitsVal_digitsOf b
  rw [natRepr] at h
  rw [natRepr] at h
  simp only at h
  rw [h] at ha
  rw [hb] at ha
  omega

lemma natRepr_ne_dash : ∀ (n : Nat), ∀ c ∈ (natRepr n).data, c ≠ '-' := by
  intro n
  exact natDigitsAux_ne_dash (n + 1) n [] (by simp)

lemma sepFront :
    ∀ (us1 us2 vs1 vs2 : List Char),
      (∀ c ∈ us1, c ≠ '-') → (∀ c ∈ us2, c ≠ '-') →
      us1 ++ '-' :: vs1 = us2 ++ '-' :: vs2 → us1 = us2 ∧ vs1 = vs2 := by
  intro us1
  induction us1 with
  | nil =>
    intro us2 vs1 vs2 h1 h2 heq
    cases us2 with
    | nil => simpa using heq
    | cons c us2' =>
      exfalso
      simp only [List.nil_append, List.cons_append, List.cons.injEq] at heq
      exact h2 c (List.mem_cons_self c us2') heq.1.symm
  | cons c us1' ih =>
    intro us2 vs1 vs2 h1 h2 heq
    cases us2 with
    | nil =>
      exfalso
      simp only [List.nil_append, List.cons_append, List.cons.injEq] at heq
      exact h1 c (List.mem_cons_self c us1') heq.1
    | cons c2 us2' =>
      simp only [List.cons_append, List.cons.injEq] at heq
      have := ih us2' vs1 vs2
        (fun x hx => h1 x (List.mem_cons_of_mem c hx))
        (fun x hx => h2 x (List.mem_cons_of_mem c2 hx)) heq.2
      exact ⟨by rw [heq.1, this.1], this.2⟩

lemma sepLast (xs1 xs2 ys1 ys2 : List Char)
    (h1 : ∀ c ∈ ys1, c ≠ '-') (h2 : ∀ c ∈ ys2, c ≠ '-')
    (heq : xs1 ++ '-' :: ys1 = xs2 ++ '-' :: ys2) :
    xs1 = xs2 ∧ ys1 = ys2 := by
  have hrev := congrArg List.reverse heq
  simp only [List.reverse_append, List.reverse_cons, List.append_assoc,
    List.singleton_append] at hrev
  have := sepFront ys1.reverse ys2.reverse xs1.reverse xs2.reverse
    (fun c hc => h1 c (List.mem_reverse.mp hc))
    (fun c hc => h2 c (List.mem_reverse.mp hc)) hrev
  exact ⟨List.reverse_injective this.2, List.reverse_injective this.1⟩

/-- Claim C5: a structured cause (one that starts with the marker "\x7b"
and parses) whose FailureReason contains "CapacityError" is classified
retryable; a plain cause containing "ThrottlingException" is classified
retryable; any other plain cause is non-retryable with the cause string
surfaced verbatim as the reason. -/
theorem c5_classifier_rules :
    ∀ (parse : String → Option Json) (cause : String),
      (∀ (j : Json) (fr : String),
        strStartsWith cause jsonOpenBrace = true →
        parse cause = some j →
        getField j "FailureReason" = some (.str fr) →
        strContains fr "CapacityError" = true →
        classifyCause parse cause = .retry) ∧
      (strStartsWith cause jsonOpenBrace = false →
        strContains cause "ThrottlingException" = true →
        classifyCause parse cause = .retry) ∧
      (strStartsWith cause jsonOpenBrace = false →
        strContains cause "ThrottlingException" = false →
        classifyCause parse cause = .terminalFail "NonCapacityFailure" cause) := by
  intro parse cause
  refine ⟨?_, ?_, ?_⟩
  · intro j fr hs hp hf hc
    simp [classifyCause, hs, hp, hf, stringMatchesValue, hc]
  · intro hs ht
    simp [classifyCause, hs, ht]
  · intro hs ht
    simp [classifyCause, hs, ht]

/-- Witness for C5: the three classifier rules at concrete causes. -/
theorem c5_classifier_rules_witness :
    classifyCause
        (fun _ => some (.obj [("FailureReason",
          .str "ClientError: CapacityError: Insufficient capacity")]))
        "\x7b\"FailureReason\":\"ClientError: CapacityError: Insufficient capacity\"\x7d" =
      .retry ∧
    classifyCause (fun _ => none) "Rate exceeded: ThrottlingException" = .retry ∧
    classifyCause (fun _ => none) "Some other message" =
      .terminalFail "NonCapacityFailure" "Some other message" := by
  refine ⟨?_, ?_, ?_⟩
  · exact (c5_classifier_rules _ _).1
      (.obj [("FailureReason", .str "ClientError: CapacityError: Insufficient capacity")])
      "ClientError: CapacityError: Insufficient capacity"
      (by decide) rfl rfl (by decide)
  · exact (c5_classifier_rules _ _).2.1 (by decide) (by decide)
  · exact (c5_classifier_rules _ _).2.2 (by decide) (by decide)

/-- Claim C6 (amended): a structured cause that parses and whose
FailureReason field is null is classified non-retryable with reason
"Unknown failure"; a structured cause whose FailureReason field is
absent aborts the run with the unhandled States.Runtime error raised by
the Choice comparison on the missing path; and an empty raw cause takes
the plain-string route and is surfaced verbatim (reason ""), not as
"Unknown failure". -/
theorem c6_unknown_failure_amended :
    ∀ (parse : String → Option Json) (cause : String) (j : Json),
      (strStartsWith cause jsonOpenBrace = true →
        parse cause = some j →
        getField j "FailureReason" = some .null →
        classifyCause parse cause =
          .terminalFail "NonCapacityFailure" "Unknown failure") ∧
      (strStartsWith cause jsonOpenBrace = true →
        parse cause = some j →
        getField j "FailureReason" = none →
        classifyCause parse cause = .runtimeError) ∧
      classifyCause parse "" = .terminalFail "NonCapacityFailure" "" := by
  intro parse cause j
  refine ⟨?_, ?_, rfl⟩
  · intro hs hp hf
    simp [classifyCause, hs, hp, hf, stringMatchesValue, isNullValue]
  · intro hs hp hf
    simp [classifyCause, hs, hp, hf]

/-- Counterexample for C6: the code surfaces an empty cause verbatim
(reason "", not "Unknown failure"), and a parsed cause with no
FailureReason field aborts with the States.Runtime outcome rather than
reaching the "Unknown failure" Fail state. -/
theorem c6_counterexample :
    classifyCause (fun _ => none) "" = .terminalFail "NonCapacityFailure" "" ∧
      ("" : String) ≠ "Unknown failure" ∧
      classifyCause (fun _ => some (.obj [])) "\x7b\x7d" = .runtimeError ∧
      ClassifyResult.runtimeError ≠
        .terminalFail "NonCapacityFailure" "Unknown failure" :=
  ⟨rfl, by decide, rfl, by decide⟩

/-- Witness for C6 (amended): a parsed cause whose FailureReason field
is null yields reason "Unknown failure", and one with the field absent
yields the States.Runtime abort. -/
theorem c6_unknown_failure_witness :
    classifyCause (fun _ => some (.obj [("FailureReason", Json.null)]))
        "\x7b\"FailureReason\":null\x7d" =
      .terminalFail "NonCapacityFailure" "Unknown failure" ∧
      classifyCause (fun _ => some (.obj [("OtherField", Json.str "x")]))
        "\x7b\"OtherField\":\"x\"\x7d" = .runtimeError :=
  ⟨(c6_unknown_failure_amended (fun _ => some (.obj [("FailureReason", Json.null)]))
      "\x7b\"FailureReason\":null\x7d" (.obj [("FailureReason", Json.null)])).1
      (by decide) rfl rfl,
    (c6_unknown_failure_amended (fun _ => some (.obj [("OtherField", Json.str "x")]))
      "\x7b\"OtherField\":\"x\"\x7d" (.obj [("OtherField", Json.str "x")])).2.1
      (by decide) rfl rfl⟩

/-- Claim C8: a cause that starts with the structured marker but fails
to parse produces the distinct `parseError` outcome — the unhandled
States.StringToJson failure — and is never classified retryable or
non-retryable. -/
theorem c8_malformed_cause :
    ∀ (parse : String → Option Json) (cause : String),
      strStartsWith cause jsonOpenBrace = true →
      parse cause = none →
      classifyCause parse cause = .parseError ∧
        ClassifyResult.parseError ≠ .retry ∧
        ∀ e r, ClassifyResult.parseError ≠ .terminalFail e r := by
  intro parse cause hs hp
  refine ⟨by simp [classifyCause, hs, hp], by decide, fun e r h => by cases h⟩

/-- Witness for C8: the malformed cause from the spec's example. -/
theorem c8_malformed_cause_witness :
    classifyCause (fun _ => none) "\x7bnot valid json" = .parseError :=
  (c8_malformed_cause (fun _ => none) "\x7bnot valid json" (by decide) rfl).1

/-- Counterexample for C4: an override that is present but empty wins
the JsonMerge, so the resolved value is "" rather than the default the
claim requires. -/
theorem c4_counterexample :
    (mergeParams ⟨some "", none, none⟩).instanceType = "" ∧
      DEFAULT_PARAMS.instanceType = "ml.g5.xlarge" ∧
      ("" : String) ≠ "ml.g5.xlarge" := ⟨rfl, rfl, by decide⟩

/-- Claim C4 (amended): for each field, a present override wins — even
when it is the empty string — and an absent field falls back to the
default; supplying no overrides yields exactly the defaults. -/
theorem c4_merge_amended :
    ∀ (o : Overrides),
      (∀ s, o.instanceType = some s → (mergeParams o).instanceType = s) ∧
      (o.instanceType = none →
        (mergeParams o).instanceType = DEFAULT_PARAMS.instanceType) ∧
      (∀ s, o.inputLocation = some s → (mergeParams o).inputLocation = s) ∧
      (o.inputLocation = none →
        (mergeParams o).inputLocation = DEFAULT_PARAMS.inputLocation) ∧
      (∀ s, o.outputLocation = some s → (mergeParams o).outputLocation = s) ∧
      (o.outputLocation = none →
        (mergeParams o).outputLocation = DEFAULT_PARAMS.outputLocation) ∧
      mergeParams noOverrides = DEFAULT_PARAMS := by
  intro o
  refine ⟨fun s h => by simp [mergeParams, h],
    fun h => by simp [mergeParams, h],
    fun s h => by simp [mergeParams, h],
    fun h => by simp [mergeParams, h],
    fun s h => by simp [mergeParams, h],
    fun h => by simp [mergeParams, h],
    rfl⟩

/-- Witness for C4 (amended): one present override wins, an absent one
falls back to the default. -/
theorem c4_merge_witness :
    (mergeParams ⟨some "ml.p4d.24xlarge", none, none⟩).instanceType =
        "ml.p4d.24xlarge" ∧
      (mergeParams ⟨some "ml.p4d.24xlarge", none, none⟩).inputLocation =
        "incoming/" := by
  constructor
  · exact (c4_merge_amended ⟨some "ml.p4d.24xlarge", none, none⟩).1 _ rfl
  · have h := (c4_merge_amended ⟨some "ml.p4d.24xlarge", none, none⟩).2.2.2.1 rfl
    exact h.trans rfl

/-- Claim C10: the batch task's catch table lists exactly
States.TaskFailed, so only task failures with that error name are routed
into the classifier and retry loop; any other error terminates the run
unclassified. -/
theorem c10_catch_only_task_failed :
    ∀ (parse : String → Option Json) (outcomes : Nat → TaskOutcome)
      (n : Nat) (st : LoopState) (e c : String),
      outcomes n = .failed e c →
      (e ∈ batchTaskCatchErrors ↔ e = "States.TaskFailed") ∧
      (e ≠ "States.TaskFailed" →
        step parse outcomes (.submit n st) = .terminal (.unclassified e)) ∧
      (e = "States.TaskFailed" → classifyCause parse c = .retry →
        step parse outcomes (.submit n st) =
          .afterIncrement (n + 1) ⟨st.retryCount + 1, st.input⟩) ∧
      (e = "States.TaskFailed" → ∀ er r,
        classifyCause parse c = .terminalFail er r →
        step parse outcomes (.submit n st) = .terminal (.failed er r)) := by
  intro parse outcomes n st e c ho
  refine ⟨by simp [batchTaskCatchErrors], ?_, ?_, ?_⟩
  · intro hne
    simp [step, ho, batchTaskCatchErrors, hne]
  · intro he hcl
    simp [step, ho, batchTaskCatchErrors, he, hcl]
  · intro he er r hcl
    simp [step, ho, batchTaskCatchErrors, he, hcl]

/-- Witness for C10: a state-level timeout bypasses the classifier and
terminates the run unclassified. -/
theorem c10_catch_only_task_failed_witness :
    step (fun _ => none) (fun _ => .failed "States.Timeout" "x")
        (.submit 0 ⟨0, DEFAULT_PARAMS⟩) =
      .terminal (.unclassified "States.Timeout") :=
  (c10_catch_only_task_failed (fun _ => none)
    (fun _ => .failed "States.Timeout" "x") 0 ⟨0, DEFAULT_PARAMS⟩
    "States.Timeout" "x" rfl).2.1 (by decide)

/-- Claim C2: in every reachable configuration of a run the retry
counter is at most 10 (at most 9 whenever a submission is issued), and
a configuration whose counter has reached 10 steps only to the
MaxRetriesExceeded terminal failure. -/
theorem c2_retry_count_invariant :
    ∀ (parse : String → Option Json) (outcomes : Nat → TaskOutcome)
      (o : Overrides) (k : Nat),
      retryInvariant parse outcomes
        ((step parse outcomes)^[k] (initConfig o)) := by
  intro parse outcomes o k
  exact retryInvariant_iterate parse outcomes o k

/-- Counterexample for C1: with every attempt failing on a retryable
(throttling) cause, the run issues exactly 10 submissions — not the 11
the claim states — before terminating with MaxRetriesExceeded. -/
theorem c1_counterexample :
    (runStateMachine (fun _ => none)
        (fun _ => .failed "States.TaskFailed" "Rate exceeded: ThrottlingException")
        noOverrides).1.length = 10 ∧
      (runStateMachine (fun _ => none)
        (fun _ => .failed "States.TaskFailed" "Rate exceeded: ThrottlingException")
        noOverrides).2 = .failed "MaxRetriesExceeded" maxRetriesCause ∧
      (10 : Nat) ≠ 11 := by
  have h := runFrom_allRetry (fun _ => none)
    (fun _ => .failed "States.TaskFailed" "Rate exceeded: ThrottlingException")
    (fun _ => "Rate exceeded: ThrottlingException")
    (fun _ => rfl)
    (fun _ => (by decide : classifyCause (fun _ => none)
      "Rate exceeded: ThrottlingException" = ClassifyResult.retry))
    0 ⟨0, mergeParams noOverrides⟩
    (Nat.zero_le 9)
  exact ⟨h.1, h.2, by decide⟩

/-- Claim C1 (amended): for a run in which every submission attempt
fails with a cause the classifier deems retryable, the controller
issues exactly 10 submission attempts in total (the initial attempt
plus 9 retries) before terminating with MaxRetriesExceeded, and never
issues an 11th. -/
theorem c1_bounded_retry_amended :
    ∀ (parse : String → Option Json) (outcomes : Nat → TaskOutcome)
      (causes : Nat → String) (o : Overrides),
      (∀ k, outcomes k = .failed "States.TaskFailed" (causes k)) →
      (∀ k, classifyCause parse (causes k) = .retry) →
      (runStateMachine parse outcomes o).1.length = 10 ∧
        (runStateMachine parse outcomes o).2 =
          .failed "MaxRetriesExceeded" maxRetriesCause := by
  intro parse outcomes causes o ho hr
  have h := runFrom_allRetry parse outcomes causes ho hr 0
    ⟨0, mergeParams o⟩ (Nat.zero_le 9)
  exact ⟨h.1, h.2⟩

/-- Witness for C1 (amended): a concrete always-throttled run makes
exactly 10 attempts. -/
theorem c1_bounded_retry_witness :
    (runStateMachine (fun _ => none)
        (fun _ => .failed "States.TaskFailed" "ThrottlingException: slow down")
        noOverrides).1.length = 10 :=
  (c1_bounded_retry_amended (fun _ => none)
    (fun _ => .failed "States.TaskFailed" "ThrottlingException: slow down")
    (fun _ => "ThrottlingException: slow down") noOverrides
    (fun _ => rfl)
    (fun _ => (by decide : classifyCause (fun _ => none)
      "ThrottlingException: slow down" = ClassifyResult.retry))).1

/-- Claim C7: every submission of a run carries exactly the parameters
resolved at the start of the run, so the parameters observed by the Job
Execution Service are field-for-field identical on every attempt. -/
theorem c7_params_stable :
    ∀ (parse : String → Option Json) (outcomes : Nat → TaskOutcome)
      (o : Overrides) (s1 s2 : Submission),
      s1 ∈ (runStateMachine parse outcomes o).1 →
      s2 ∈ (runStateMachine parse outcomes o).1 →
      s1.params = mergeParams o ∧ s1.params = s2.params := by
  intro parse outcomes o s1 s2 h1 h2
  have e1 := runFrom_params_const parse outcomes 0 ⟨0, mergeParams o⟩ s1 h1
  have e2 := runFrom_params_const parse outcomes 0 ⟨0, mergeParams o⟩ s2 h2
  exact ⟨e1, e1.trans e2.symm⟩

/-- Witness for C7: the sole submission of a one-shot successful run
carries the resolved default parameters. -/
theorem c7_params_stable_witness :
    (⟨0, 0, DEFAULT_PARAMS⟩ : Submission) ∈
        (runStateMachine (fun _ => none) (fun _ => .succeeded) noOverrides).1 ∧
      (⟨0, 0, DEFAULT_PARAMS⟩ : Submission).params = mergeParams noOverrides := by
  have hmem : (⟨0, 0, DEFAULT_PARAMS⟩ : Submission) ∈
      (runStateMachine (fun _ => none) (fun _ => .succeeded) noOverrides).1 := by
    rw [runStateMachine, runFrom]
    simp [mergeParams, noOverrides, DEFAULT_PARAMS]
  exact ⟨hmem,
    (c7_params_stable (fun _ => none) (fun _ => .succeeded) noOverrides
      ⟨0, 0, DEFAULT_PARAMS⟩ ⟨0, 0, DEFAULT_PARAMS⟩ hmem hmem).1⟩

/-- Counterexample for C3: the variant-1 job name embeds no attempt
number, so two distinct attempts of the same execution produce the same
job name. -/
theorem c3_counterexample :
    V1.jobNameAt "DotsOCR" "exec-1" 0 = V1.jobNameAt "DotsOCR" "exec-1" 1 ∧
      (0 : Nat) ≠ 1 := ⟨rfl, by decide⟩

/-- Claim C3 (amended): the variant-2 job name (which embeds the
retryCount) is injective in the execution id and attempt number for a
fixed base and suffix — distinct attempts of one execution, and
distinct executions, never collide; the variant-1 name is injective in
the execution id but is independent of the attempt number. -/
theorem c3_naming_amended :
    (∀ (tb sfx e1 e2 : String) (a1 a2 : Nat),
      V2.buildTransformJobName tb sfx e1 a1 = V2.buildTransformJobName tb sfx e2 a2 →
      e1 = e2 ∧ a1 = a2) ∧
    (∀ (b e1 e2 : String),
      V1.buildTransformJobName b e1 = V1.buildTransformJobName b e2 →
      e1 = e2) := by
  constructor
  · intro tb sfx e1 e2 a1 a2 h
    have hd := congrArg String.data h
    simp only [V2.buildTransformJobName, String.data_append,
      List.append_assoc] at hd
    have h1 := List.append_cancel_left hd
    have h2 := List.append_cancel_left h1
    have h3 := List.append_cancel_left h2
    have h4 := List.append_cancel_left h3
    have h5 := List.append_cancel_left h4
    have h6 := List.append_cancel_left h5
    have hsep := sepLast e1.data e2.data (natRepr a1).data (natRepr a2).data
      (natRepr_ne_dash a1) (natRepr_ne_dash a2) h6
    exact ⟨congrArg String.mk hsep.1, natRepr_injective hsep.2⟩
  · intro b e1 e2 h
    have hd := congrArg String.data h
    simp only [V1.buildTransformJobName, String.data_append,
      List.append_assoc] at hd
    have h1 := List.append_cancel_left hd
    have h2 := List.append_cancel_left h1
    have h3 := List.append_cancel_left h2
    have h4 := List.append_cancel_left h3
    exact congrArg String.mk h4

/-- Witness for C3 (amended): the variant-2 injectivity applied at a
concrete name equality. -/
theorem c3_naming_witness : ("execA" : String) = "execA" ∧ (2 : Nat) = 2 :=
  c3_naming_amended.1 "base" "dots" "execA" "execA" 2 2 rfl

/-- Counterexample for C9: the variant-2 name embeds a 21-character base
unmodified (its first 21 characters are the whole base), and even the
truncating variant-1 name grows past 63 characters with a 36-character
execution id. -/
theorem c9_counterexample :
    (V2.buildTransformJobName "abcdefghijklmnopqrstu" "dots" "exec" 0).data.take 21 =
        ("abcdefghijklmnopqrstu" : String).data ∧
      ("abcdefghijklmnopqrstu" : String).length = 21 ∧
      (V1.buildTransformJobName "abcdefghijklmnopqrst"
          "E12345678901234567890123456789012345").length = 64 ∧
      63 < 64 := by
  refine ⟨by decide, by decide, by decide, by decide⟩

/-- Claim C9 (amended): the variant-1 name truncates the base to at
most 20 characters, giving total length min 20 |base| + 8 + |execId|,
which stays within 63 characters exactly when the execution id is short
enough (at most 35 characters suffices); the variant-2 name embeds its
base argument verbatim, without truncation. -/
theorem c9_name_length_amended :
    (∀ (base execName : String),
      (V1.buildTransformJobName base execName).length =
        min 20 base.length + 8 + execName.length) ∧
    (∀ (base execName : String), execName.length ≤ 35 →
      (V1.buildTransformJobName base execName).length ≤ 63) ∧
    (∀ (tb sfx e : String) (a : Nat),
      (V2.buildTransformJobName tb sfx e a).data.take tb.data.length = tb.data) := by
  have hlen : ∀ (base execName : String),
      (V1.buildTransformJobName base execName).length =
        min 20 base.length + 8 + execName.length := by
    intro base execName
    simp only [V1.buildTransformJobName, String.length_append]
    have h1 : (substringTo base 20).length = min 20 base.length := by
      show (base.data.take 20).length = min 20 base.length
      rw [List.length_take]
      rfl
    have h2 : ("-ocr-" : String).length = 5 := rfl
    have h3 : DEPLOYMENT_VERSION.length = 2 := rfl
    have h4 : ("-" : String).length = 1 := rfl
    rw [h1, h2, h3, h4]
  refine ⟨hlen, ?_, ?_⟩
  · intro base execName hb
    rw [hlen base execName]
    have := Nat.min_le_left 20 base.length
    omega
  · intro tb sfx e a
    have hd : (V2.buildTransformJobName tb sfx e a).data =
        tb.data ++ ("-".data ++ (sfx.data ++ ("-".data ++
          (DEPLOYMENT_VERSION.data ++ ("-".data ++ (e.data ++
            ("-".data ++ (natRepr a).data))))))) := by
      simp [V2.buildTransformJobName, String.data_append, List.append_assoc]
    rw [hd]
    exact List.take_left tb.data _

/-- Witness for C9 (amended): a short base and execution id keep the
variant-1 name within 63 characters. -/
theorem c9_name_length_witness :
    (V1.buildTransformJobName "DotsOCR" "abc").length ≤ 63 :=
  c9_name_length_amended.2.1 "DotsOCR" "abc" (by decide)
